import Mathlib

/-!
Verification of the PayFast payment-confirmation and ownership-transfer
subsystem of BESAPlayer (server/src/payment/payfastRouter.ts, concatenated in
the repository snapshot as src/src/db/index.ts).

The development shallowly embeds:
- the signature codec `generatePayFastSignature` (filter, sort, form-encode,
  MD5) together with a full executable MD5,
- the in-memory `paymentStatusStore` as a map from payment id to record,
- the data-access collaborators (listings, users, stores, collections,
  orders) as lists inside a `DB` state,
- the ownership transfer engine `transferCardOwnership`,
- the three route handlers: POST /create-payment, GET /return, POST /itn.

Timestamps (`Date.now()`) are passed as explicit `now : Nat` arguments; the
random suffix of generated identifiers is modelled by the same `now` value.
-/

/-- Whitespace set removed by the JavaScript `String.prototype.trim` used on
signature values (tab, LF, VT, FF, CR, space, NBSP, BOM). -/
def jsWhitespace (c : Char) : Bool :=
  c.toNat = 9 || c.toNat = 10 || c.toNat = 11 || c.toNat = 12 ||
  c.toNat = 13 || c.toNat = 32 || c.toNat = 160 || c.toNat = 65279

/-- JavaScript `value.trim()`: strip leading and trailing whitespace. -/
def jsTrim (s : String) : String :=
  ⟨((s.data.dropWhile jsWhitespace).reverse.dropWhile jsWhitespace).reverse⟩

/-- JavaScript `a || b` for an optional string `a`: `b` when `a` is absent or
empty (falsy), otherwise `a`. -/
def jsOr (a : Option String) (b : String) : String :=
  match a with
  | some v => if v = "" then b else v
  | none => b

/-- JavaScript `a || b` where both sides may be null: first non-falsy value,
or `none`. -/
def jsOrO (a b : Option String) : Option String :=
  match a with
  | some v => if v = "" then b else some v
  | none => b

/-- SQL `LOWER(TRIM(x))` as used by the case-insensitive card-name matches. -/
def sqlNorm (s : String) : String :=
  ⟨((s.data.dropWhile (· = ' ')).reverse.dropWhile (· = ' ')).reverse.map Char.toLower⟩

/-- Lowercase hexadecimal digit. -/
def hexLower (n : Nat) : Char :=
  if n < 10 then Char.ofNat (48 + n) else Char.ofNat (87 + n)

/-- Uppercase hexadecimal digit (used by percent-encoding). -/
def hexUpper (n : Nat) : Char :=
  if n < 10 then Char.ofNat (48 + n) else Char.ofNat (55 + n)

/-- UTF-8 encoding of a single character as a byte list. -/
def utf8Bytes (c : Char) : List Nat :=
  let n := c.toNat
  if n < 128 then [n]
  else if n < 2048 then [192 + n / 64, 128 + n % 64]
  else if n < 65536 then [224 + n / 4096, 128 + n / 64 % 64, 128 + n % 64]
  else [240 + n / 262144, 128 + n / 4096 % 64, 128 + n / 64 % 64, 128 + n % 64]

/-- Characters that JavaScript `encodeURIComponent` leaves unescaped. -/
def isUriUnreserved (c : Char) : Bool :=
  (65 ≤ c.toNat && c.toNat ≤ 90) || (97 ≤ c.toNat && c.toNat ≤ 122) ||
  (48 ≤ c.toNat && c.toNat ≤ 57) ||
  c.toNat = 45 || c.toNat = 95 || c.toNat = 46 || c.toNat = 33 ||
  c.toNat = 126 || c.toNat = 42 || c.toNat = 39 || c.toNat = 40 || c.toNat = 41

/-- Percent-encoding of one character, per `encodeURIComponent`. -/
def encChar (c : Char) : List Char :=
  if isUriUnreserved c then [c]
  else (utf8Bytes c).flatMap (fun b => ['%', hexUpper (b / 16), hexUpper (b % 16)])

/-- The `.replace(/%20/g, '+')` pass the codec applies after encoding. -/
def plusReplace : List Char → List Char
  | '%' :: '2' :: '0' :: rest => '+' :: plusReplace rest
  | c :: rest => c :: plusReplace rest
  | [] => []

/-- PayFast value encoding: `encodeURIComponent(value).replace(/%20/g, '+')`. -/
def pfEncode (s : String) : String :=
  ⟨plusReplace (s.data.flatMap encChar)⟩

/-! ## MD5 (RFC 1321), over `Nat` with explicit reduction mod 2^32 -/

def m32 : Nat := 4294967296

def mask32 : Nat := 4294967295

/-- 32-bit left rotation. -/
def rotl32 (x n : Nat) : Nat :=
  ((x <<< n) ||| (x >>> (32 - n))) % m32

/-- The 64 sine-derived MD5 round constants. -/
def md5K : List Nat :=
  [0xd76aa478, 0xe8c7b756, 0x242070db, 0xc1bdceee,
   0xf57c0faf, 0x4787c62a, 0xa8304613, 0xfd469501,
   0x698098d8, 0x8b44f7af, 0xffff5bb1, 0x895cd7be,
   0x6b901122, 0xfd987193, 0xa679438e, 0x49b40821,
   0xf61e2562, 0xc040b340, 0x265e5a51, 0xe9b6c7aa,
   0xd62f105d, 0x02441453, 0xd8a1e681, 0xe7d3fbc8,
   0x21e1cde6, 0xc33707d6, 0xf4d50d87, 0x455a14ed,
   0xa9e3e905, 0xfcefa3f8, 0x676f02d9, 0x8d2a4c8a,
   0xfffa3942, 0x8771f681, 0x6d9d6122, 0xfde5380c,
   0xa4beea44, 0x4bdecfa9, 0xf6bb4b60, 0xbebfbc70,
   0x289b7ec6, 0xeaa127fa, 0xd4ef3085, 0x04881d05,
   0xd9d4d039, 0xe6db99e5, 0x1fa27cf8, 0xc4ac5665,
   0xf4292244, 0x432aff97, 0xab9423a7, 0xfc93a039,
   0x655b59c3, 0x8f0ccc92, 0xffeff47d, 0x85845dd1,
   0x6fa87e4f, 0xfe2ce6e0, 0xa3014314, 0x4e0811a1,
   0xf7537e82, 0xbd3af235, 0x2ad7d2bb, 0xeb86d391]

/-- The 64 per-round left-rotation amounts. -/
def md5S : List Nat :=
  [7, 12, 17, 22, 7, 12, 17, 22, 7, 12, 17, 22, 7, 12, 17, 22,
   5, 9, 14, 20, 5, 9, 14, 20, 5, 9, 14, 20, 5, 9, 14, 20,
   4, 11, 16, 23, 4, 11, 16, 23, 4, 11, 16, 23, 4, 11, 16, 23,
   6, 10, 15, 21, 6, 10, 15, 21, 6, 10, 15, 21, 6, 10, 15, 21]

/-- Little-endian byte rendering of `n`, `k` bytes wide. -/
def toLEBytes : Nat → Nat → List Nat
  | _, 0 => []
  | n, k + 1 => (n % 256) :: toLEBytes (n / 256) k

/-- Split a byte list into 64-byte chunks (fueled structural recursion). -/
def chunksAux : Nat → List Nat → List (List Nat)
  | 0, _ => []
  | _, [] => []
  | fuel + 1, l => l.take 64 :: chunksAux fuel (l.drop 64)

def chunks64 (l : List Nat) : List (List Nat) :=
  chunksAux l.length l

/-- The `i`-th little-endian 32-bit word of a 64-byte chunk. -/
def md5Word (chunk : List Nat) (i : Nat) : Nat :=
  chunk.getD (4 * i) 0 + 256 * chunk.getD (4 * i + 1) 0 +
  65536 * chunk.getD (4 * i + 2) 0 + 16777216 * chunk.getD (4 * i + 3) 0

/-- One MD5 round on the running state `(a, b, c, d)`. -/
def md5Mix (chunk : List Nat) (st : Nat × Nat × Nat × Nat) (i : Nat) :
    Nat × Nat × Nat × Nat :=
  let (a, b, c, d) := st
  let fg : Nat × Nat :=
    if i < 16 then ((b &&& c) ||| ((mask32 ^^^ b) &&& d), i)
    else if i < 32 then ((d &&& b) ||| ((mask32 ^^^ d) &&& c), (5 * i + 1) % 16)
    else if i < 48 then (b ^^^ c ^^^ d, (3 * i + 5) % 16)
    else (c ^^^ (b ||| (mask32 ^^^ d)), (7 * i) % 16)
  let f := (fg.1 + a + md5K.getD i 0 + md5Word chunk fg.2) % m32
  (d, (b + rotl32 f (md5S.getD i 0)) % m32, b, c)

/-- Process one 64-byte chunk into the four running hash words. -/
def md5Chunk (h : Nat × Nat × Nat × Nat) (chunk : List Nat) :
    Nat × Nat × Nat × Nat :=
  let (h0, h1, h2, h3) := h
  let (a, b, c, d) := (List.range 64).foldl (md5Mix chunk) (h0, h1, h2, h3)
  ((h0 + a) % m32, (h1 + b) % m32, (h2 + c) % m32, (h3 + d) % m32)

/-- MD5 padding: append `0x80`, zero-fill to 56 mod 64, then the 64-bit
little-endian bit length. -/
def md5Pad (msg : List Nat) : List Nat :=
  let len := msg.length
  let zeros := (64 + 56 - (len + 1) % 64) % 64
  msg ++ [128] ++ List.replicate zeros 0 ++ toLEBytes (len * 8) 8

/-- Lowercase-hex rendering of one byte. -/
def byteHex (b : Nat) : List Char :=
  [hexLower (b / 16), hexLower (b % 16)]

/-- MD5 digest of a string (UTF-8 input, lowercase hex output), the model of
`crypto.createHash('md5').update(str, 'utf8').digest('hex')`. -/
def md5hex (s : String) : String :=
  let bytes := (s.data.flatMap utf8Bytes)
  let (h0, h1, h2, h3) :=
    (chunks64 (md5Pad bytes)).foldl md5Chunk
      (0x67452301, 0xefcdab89, 0x98badcfe, 0x10325476)
  ⟨(toLEBytes h0 4 ++ toLEBytes h1 4 ++ toLEBytes h2 4 ++ toLEBytes h3 4).flatMap byteHex⟩

/-! ## Signature Codec (`generatePayFastSignature`) -/

/-- Lexicographic strict comparison of character lists by code point, the
order JavaScript `Array.prototype.sort()` applies to the (ASCII) field
names. -/
def strLtB : List Char → List Char → Bool
  | [], [] => false
  | [], _ :: _ => true
  | _ :: _, [] => false
  | a :: as, b :: bs =>
    if a.toNat < b.toNat then true
    else if b.toNat < a.toNat then false
    else strLtB as bs

/-- Reflexive key order used for sorting field names. -/
def strLeB (a b : String) : Bool := !(strLtB b.data a.data)

/-- The key order as a decidable relation. -/
def keyLe (a b : String) : Prop := strLeB a b = true

instance : DecidableRel keyLe :=
  fun a b => instDecidableEqBool (strLeB a b) true

/-- The filtering pass of `generatePayFastSignature`: drop the `signature`
field and fields whose value is the empty string (a `null`/absent field is
modelled as not being in the list), trimming each kept value. -/
def payfastFiltered (params : List (String × String)) : List (String × String) :=
  params.filterMap fun kv =>
    if kv.2 ≠ "" ∧ kv.1 ≠ "signature" then some (kv.1, jsTrim kv.2) else none

/-- The `key=value` pieces of the canonical string: keys sorted
lexicographically, each value percent-encoded with spaces as `+`. -/
def canonicalPairs (filtered : List (String × String)) : List String :=
  (List.insertionSort keyLe (filtered.map Prod.fst)).map
    fun k => k ++ "=" ++ pfEncode ((filtered.lookup k).getD "")

/-- Join the canonical pieces with `&`. -/
def canonicalOfFiltered (filtered : List (String × String)) : String :=
  String.intercalate "&" (canonicalPairs filtered)

/-- Append `&passphrase=...` when a non-empty passphrase is configured. -/
def withPassphrase (paramString : String) (passphrase : Option String) : String :=
  match passphrase with
  | some p =>
      if p ≠ "" ∧ jsTrim p ≠ "" then
        paramString ++ "&passphrase=" ++ pfEncode (jsTrim p)
      else paramString
  | none => paramString

/-- The string that gets hashed. -/
def signatureBaseString (params : List (String × String))
    (passphrase : Option String) : String :=
  withPassphrase (canonicalOfFiltered (payfastFiltered params)) passphrase

/-- `generatePayFastSignature`: canonicalize and MD5, lowercase hex. -/
def generatePayFastSignature (params : List (String × String))
    (passphrase : Option String) : String :=
  md5hex (signatureBaseString params passphrase)

/-- Signature verification as performed by the ITN handler: recompute the
expected signature over the inbound parameters and compare. -/
def verifySignature (params : List (String × String)) (suppliedDigest : String)
    (passphrase : Option String) : Bool :=
  generatePayFastSignature params passphrase == suppliedDigest

/-! ## Payment Record Store (`paymentStatusStore`) -/

inductive PayStatus where
  | pending
  | complete
  | failed
  | cancelled
deriving DecidableEq, Repr

/-- One entry of `paymentStatusStore`. `buyerId`/`sellerId` are kept as the
strings the code converts them to; `listingId` is numeric. -/
structure PaymentRecord where
  status : PayStatus
  mPaymentId : String
  pfPaymentId : Option String
  amount : Option String
  timestamp : Nat
  listingId : Option Nat
  buyerId : Option String
  sellerId : Option String
deriving DecidableEq, Repr

/-- The in-memory `Map` keyed by payment id. -/
def PayStore := String → Option PaymentRecord

/-- `paymentStatusStore.set(k, r)`. -/
def PayStore.set (s : PayStore) (k : String) (r : PaymentRecord) : PayStore :=
  fun k' => if k' = k then some r else s k'

def emptyPayStore : PayStore := fun _ => none

/-! ## Data-access collaborators (storeListings, users, stores, collections,
orders), modelled as list-backed tables inside one `DB` state -/

structure Listing where
  id : Nat
  cardName : String
  description : Option String
  cardImage : Option String
  price : String
  storeId : Nat
  isActive : Bool
deriving DecidableEq, Repr

structure User where
  id : String
  email : String
  name : Option String
deriving DecidableEq, Repr

structure StoreEnt where
  id : Nat
  userId : String
  storeName : Option String
  totalSales : Nat
  updatedAt : Option Nat
deriving DecidableEq, Repr

structure CollectionCard where
  id : Nat
  userId : String
  type : Option String
  name : String
  description : Option String
  image : Option String
  cardId : Option String
  set : Option String
  condition : Option String
  grade : Option String
  estimatedValue : Option String
  purchasePrice : Option String
  purchaseDate : Option Nat
  notes : Option String
deriving DecidableEq, Repr

structure OrderRec where
  id : Nat
  storeId : Nat
  buyerId : String
  itemName : String
  itemImage : Option String
  price : String
  quantity : Nat
  status : String
  orderNumber : String
deriving DecidableEq, Repr

structure DB where
  listings : List Listing
  users : List User
  stores : List StoreEnt
  collections : List CollectionCard
  orders : List OrderRec
  nextCollectionId : Nat
  nextOrderId : Nat
deriving DecidableEq, Repr

def emptyDB : DB := ⟨[], [], [], [], [], 1, 1⟩

/-- `db.update(storeListings).set({isActive: false}).where(id = lid)`. -/
def markListingInactive (lid : Nat) (db : DB) : DB :=
  let updated := db.listings.map
    (fun l => if l.id == lid then { l with isActive := false } else l)
  { db with listings := updated }

/-! ## Decimal helpers for the order price (`parseFloat` / `toFixed(2)`) -/

/-- A nonnegative decimal number `mant / 10 ^ scale`. -/
structure DecNum where
  mant : Nat
  scale : Nat
deriving DecidableEq, Repr

def digitsVal (l : List Char) : Nat :=
  l.foldl (fun a c => a * 10 + (c.toNat - 48)) 0

/-- JavaScript `parseFloat` on the plain nonnegative decimal literals this
system passes around (`"165.00"` etc.): longest `digits[.digits]` prefix,
`none` (NaN) when no digit is consumed. Signs, exponents and leading
whitespace do not occur on these inputs and are not modelled. -/
def jsParseFloat (s : String) : Option DecNum :=
  let cs := s.data
  let intDigits := cs.takeWhile Char.isDigit
  let rest := cs.drop intDigits.length
  let fracDigits :=
    match rest with
    | '.' :: r => r.takeWhile Char.isDigit
    | _ => []
  if intDigits.isEmpty && fracDigits.isEmpty then none
  else some ⟨digitsVal (intDigits ++ fracDigits), fracDigits.length⟩

def pad2 (n : Nat) : String :=
  if n < 10 then "0" ++ toString n else toString n

/-- `x.toFixed(2)` on a decimal value (round half up; exact on the two-decimal
amounts this system handles). -/
def formatFixed2 (d : DecNum) : String :=
  let p := 10 ^ d.scale
  let cents := (d.mant * 200 + p) / (2 * p)
  toString (cents / 100) ++ "." ++ pad2 (cents % 100)

/-! ## Ownership Transfer Engine (`transferCardOwnership`) -/

/-- `transferCardOwnership(listingId, buyerId, sellerId, itemName, amount)`:
look up listing, buyer, seller and seller store (each miss aborts with the
state unchanged), locate the traded card by exact / case-insensitive /
payment-item-name match, move it to the buyer (or create it fresh from the
listing), deactivate the listing, insert the order, and increment the store
sales counter. `now` stands for `Date.now()` and also provides the random
order-number suffix. -/
def transferCardOwnership (listingId : Nat) (buyerId sellerId : String)
    (itemName amount : String) (now : Nat) (db : DB) : DB :=
  match db.listings.find? (fun l => l.id == listingId) with
  | none => db
  | some listing =>
    match db.users.find? (fun u => u.id == buyerId) with
    | none => db
    | some _buyer =>
      match db.users.find? (fun u => u.id == sellerId) with
      | none => db
      | some seller =>
        match db.stores.find? (fun st => st.userId == sellerId) with
        | none => db
        | some sellerStore =>
          let sellerCard :=
            match db.collections.find?
                (fun (c : CollectionCard) =>
                  c.userId == sellerId && c.name == listing.cardName) with
            | some c => some c
            | none =>
              match db.collections.find?
                  (fun (c : CollectionCard) => c.userId == sellerId &&
                    sqlNorm c.name == sqlNorm listing.cardName) with
              | some c => some c
              | none =>
                db.collections.find?
                  (fun (c : CollectionCard) => c.userId == sellerId &&
                    sqlNorm c.name == sqlNorm itemName)
          let sellerLabel := jsOr (jsOrO sellerStore.storeName seller.name) "seller"
          let db1 :=
            match sellerCard with
            | some c =>
              let newCard : CollectionCard :=
                { id := db.nextCollectionId, userId := buyerId,
                  type := some (jsOr c.type "card"),
                  name := listing.cardName,
                  description := jsOrO c.description listing.description,
                  image := jsOrO c.image listing.cardImage,
                  cardId := c.cardId, set := c.set, condition := c.condition,
                  grade := c.grade, estimatedValue := c.estimatedValue,
                  purchasePrice := some amount, purchaseDate := some now,
                  notes := some ("Purchased from " ++ sellerLabel) }
              let dbIns := { db with
                collections := db.collections ++ [newCard],
                nextCollectionId := db.nextCollectionId + 1 }
              { dbIns with
                collections := dbIns.collections.filter (fun x => x.id != c.id) }
            | none =>
              let newCard : CollectionCard :=
                { id := db.nextCollectionId, userId := buyerId,
                  type := some "card", name := listing.cardName,
                  description := listing.description, image := listing.cardImage,
                  cardId := none, set := none, condition := none, grade := none,
                  estimatedValue := none, purchasePrice := some amount,
                  purchaseDate := some now,
                  notes := some ("Purchased from " ++ sellerLabel) }
              { db with collections := db.collections ++ [newCard],
                        nextCollectionId := db.nextCollectionId + 1 }
          let db2 := markListingInactive listingId db1
          let priceSrc := if amount != "" then amount else listing.price
          let orderPrice :=
            match jsParseFloat priceSrc with
            | none => listing.price
            | some q => formatFixed2 q
          let newOrder : OrderRec :=
            { id := db2.nextOrderId, storeId := listing.storeId,
              buyerId := buyerId, itemName := listing.cardName,
              itemImage := listing.cardImage, price := orderPrice,
              quantity := 1, status := "completed",
              orderNumber := "ORD-" ++ toString now }
          let db3 := { db2 with orders := db2.orders ++ [newOrder],
                                nextOrderId := db2.nextOrderId + 1 }
          let bumped := db3.stores.map
            (fun st =>
              if st.id == listing.storeId then
                { st with totalSales := st.totalSales + 1, updatedAt := some now }
              else st)
          { db3 with stores := bumped }

/-! ## PayFast configuration (environment-dependent credentials) -/

structure PayfastConfig where
  merchantId : String
  merchantKey : String
  passphrase : String
  sandboxMerchantId : String
  sandboxMerchantKey : String
  sandboxPassphrase : String
  sandbox : Bool
deriving DecidableEq, Repr

/-! ## POST /payment/create-payment -/

/-- The request-body fields of `/create-payment` the payment bookkeeping
depends on. A JSON field that is absent is `none`; the ids are modelled
already parsed (the handler converts `listingId` with `parseInt` and the user
ids with `String(...)`). -/
structure CreatePaymentInput where
  amount : Option String
  itemName : Option String
  mPaymentId : Option String
  listingId : Option Nat
  buyerId : Option String
  sellerId : Option String
deriving DecidableEq, Repr

/-- JavaScript falsiness of an optional string field (absent or empty). -/
def jsFalsy : Option String → Bool
  | none => true
  | some s => s == ""

structure CreateResult where
  respStatus : Nat
  paymentId : String
  store : PayStore

/-- `router.post('/create-payment')`, restricted to its validation and
payment-record bookkeeping: reject with 400 when `amount` or `itemName` is
falsy (before any record is created), otherwise store a `pending` record
under the caller-supplied or generated payment id. The outbound signed
parameter set and payment URL are response-only data and are not modelled.
`freshId` stands for the generated `pf_<timestamp>_<random>` id. -/
def createPayment (inp : CreatePaymentInput) (now : Nat) (freshId : String)
    (s : PayStore) : CreateResult :=
  if jsFalsy inp.amount || jsFalsy inp.itemName then
    ⟨400, "", s⟩
  else
    let paymentId := jsOr inp.mPaymentId freshId
    let s' := s.set paymentId
      { status := .pending, mPaymentId := paymentId, pfPaymentId := none,
        amount := none, timestamp := now, listingId := inp.listingId,
        buyerId := inp.buyerId, sellerId := inp.sellerId }
    ⟨200, paymentId, s'⟩

/-! ## GET /payment/return -/

structure RetResult where
  respStatus : Nat
  store : PayStore
  db : DB

/-- The store/DB update performed by the return handler when
`status === 'success'` and a string `m_payment_id` is present: promote a
still-`pending` record to `complete` (preserving all stored fields) and run
the transfer when the three relation ids are known, falling back to only
deactivating the listing when just `listingId` is known; create a bare
`complete` record when none exists; do nothing when the record is already in
a non-`pending` state. -/
def returnSuccessUpdate (pid : String) (now : Nat) (s : PayStore) (db : DB) :
    PayStore × DB :=
  match s pid with
  | some p =>
    if p.status == .pending then
      let s2 := s.set pid { p with status := .complete, timestamp := now }
      match p.listingId, p.buyerId, p.sellerId with
      | some lid, some bid, some sid =>
        (s2,
          match db.listings.find? (fun l => l.id == lid) with
          | some listing =>
              transferCardOwnership lid bid sid listing.cardName
                (jsOr p.amount listing.price) now db
          | none => db)
      | some lid, _, _ => (s2, markListingInactive lid db)
      | _, _, _ => (s2, db)
    else (s, db)
  | none =>
    (s.set pid
      { status := .complete, mPaymentId := pid, pfPaymentId := none,
        amount := none, timestamp := now, listingId := none, buyerId := none,
        sellerId := none }, db)

/-- `router.get('/return')`: the update above runs only for
`status=success`; the response is the success/cancel redirect page (200) or
`400` for any other `status` value. -/
def returnHandler (status : String) (mPaymentId : Option String) (now : Nat)
    (s : PayStore) (db : DB) : RetResult :=
  let upd :=
    match mPaymentId with
    | some pid => if status == "success" then returnSuccessUpdate pid now s db else (s, db)
    | none => (s, db)
  let code : Nat :=
    if status == "success" then 200
    else if status == "cancel" then 200
    else 400
  ⟨code, upd.1, upd.2⟩

/-! ## POST /payment/itn -/

/-- The ITN request body: the raw form-encoded field list. Field accessors
mirror the destructuring of `req.body` (an absent field reads as ""). -/
structure ItnData where
  params : List (String × String)

def ItnData.field (d : ItnData) (k : String) : String :=
  (d.params.lookup k).getD ""

structure ItnResult where
  respStatus : Nat
  sigMatch : Bool
  store : PayStore
  db : DB

/-- Replace the value under `k` (or append it), modelling assignment to a key
of a JavaScript object. -/
def setKey (l : List (String × String)) (k v : String) :
    List (String × String) :=
  if l.any (fun kv => kv.1 == k) then
    l.map (fun kv => if kv.1 == k then (k, v) else kv)
  else l ++ [(k, v)]

/-- The fallback resolution of the ITN COMPLETE branch when the stored record
lacks the relation ids: find an active listing by item name, then the seller
store by the listing's store id and the buyer by notification email; each
miss acknowledges 200 without further effects. -/
def itnCompleteFallback (itemName emailAddr amountGross : String)
    (sig : Bool) (s' : PayStore) (now : Nat) (db : DB) : ItnResult :=
  match db.listings.find? (fun l => l.cardName == itemName && l.isActive) with
  | some listing =>
    match db.stores.find? (fun st => st.id == listing.storeId) with
    | none => ⟨200, sig, s', db⟩
    | some sellerStore =>
      match db.users.find? (fun u => u.email == emailAddr) with
      | none => ⟨200, sig, s', db⟩
      | some buyer =>
        ⟨200, sig, s',
          transferCardOwnership listing.id buyer.id sellerStore.userId
            itemName amountGross now db⟩
  | none => ⟨200, sig, s', db⟩

/-- `router.post('/itn')`: recompute the expected signature from the inbound
parameters (minus `signature` and empty values, plus the resolved
`merchant_key`) — a mismatch is only logged (`sigMatch`), never blocks
processing. Then branch on `payment_status`: COMPLETE overwrites the stored
record to `complete` (carrying over any stored relation ids) and invokes the
transfer with the stored ids, or through the fallback resolution; FAILED
overwrites the record to a bare `failed` record; anything else changes
nothing. Every exit acknowledges 200 (the surrounding catch also answers
200). The signature check rebuilds the parameter set from the inbound body
(minus `signature` and empty values, plus the resolved `merchant_key`) and
recomputes the expected signature with the credentials the inbound
`merchant_id` selects. -/
def itnSigOk (cfg : PayfastConfig) (d : ItnData) : Bool :=
  let isSandbox := d.field "merchant_id" == cfg.sandboxMerchantId
  let merchantKey := if isSandbox then cfg.sandboxMerchantKey else cfg.merchantKey
  let passphrase := if isSandbox then cfg.sandboxPassphrase else cfg.passphrase
  let verifyParams :=
    setKey (d.params.filter (fun kv => kv.1 ≠ "signature" && kv.2 ≠ ""))
      "merchant_key" merchantKey
  let expectedSignature :=
    generatePayFastSignature verifyParams
      (if passphrase == "" then none else some passphrase)
  expectedSignature == d.field "signature"

def itnHandler (cfg : PayfastConfig) (d : ItnData) (now : Nat) (s : PayStore)
    (db : DB) : ItnResult :=
  let sigOk := itnSigOk cfg d
  let pid := d.field "m_payment_id"
  let pstat := d.field "payment_status"
  if pstat == "COMPLETE" then
    let stored := s pid
    let s' := s.set pid
      { status := .complete, mPaymentId := pid,
        pfPaymentId := some (d.field "pf_payment_id"),
        amount := some (d.field "amount_gross"), timestamp := now,
        listingId := stored.bind (·.listingId),
        buyerId := stored.bind (·.buyerId),
        sellerId := stored.bind (·.sellerId) }
    match stored.bind (·.listingId), stored.bind (·.buyerId),
        stored.bind (·.sellerId) with
    | some lid, some bid, some sid =>
      ⟨200, sigOk, s',
        transferCardOwnership lid bid sid (d.field "item_name")
          (d.field "amount_gross") now db⟩
    | _, _, _ =>
      itnCompleteFallback (d.field "item_name") (d.field "email_address")
        (d.field "amount_gross") sigOk s' now db
  else if pstat == "FAILED" then
    ⟨200, sigOk,
      s.set pid
        { status := .failed, mPaymentId := pid, pfPaymentId := none,
          amount := none, timestamp := now, listingId := none, buyerId := none,
          sellerId := none }, db⟩
  else
    ⟨200, sigOk, s, db⟩

/-- The record the ITN COMPLETE branch writes under `m_payment_id`. -/
def itnCompleteRecord (d : ItnData) (now : Nat) (s : PayStore) : PaymentRecord :=
  { status := .complete, mPaymentId := d.field "m_payment_id",
    pfPaymentId := some (d.field "pf_payment_id"),
    amount := some (d.field "amount_gross"), timestamp := now,
    listingId := (s (d.field "m_payment_id")).bind (·.listingId),
    buyerId := (s (d.field "m_payment_id")).bind (·.buyerId),
    sellerId := (s (d.field "m_payment_id")).bind (·.sellerId) }

/-- The record the ITN FAILED branch writes under `m_payment_id`. -/
def itnFailedRecord (d : ItnData) (now : Nat) : PaymentRecord :=
  { status := .failed, mPaymentId := d.field "m_payment_id",
    pfPaymentId := none, amount := none, timestamp := now, listingId := none,
    buyerId := none, sellerId := none }

/-! ## Concrete sample states used by witnesses and counterexamples -/

def sampleListing : Listing :=
  ⟨1, "Flareon Ex", none, none, "165.00", 5, true⟩

def sampleBuyer : User := ⟨"buyer1", "buyer@example.com", none⟩

def sampleSeller : User := ⟨"seller1", "seller@example.com", some "Sello"⟩

def sampleStore : StoreEnt := ⟨5, "seller1", some "CardShop", 0, none⟩

def sampleCard : CollectionCard :=
  ⟨10, "seller1", some "card", "Flareon Ex", none, none, none, none, none,
   none, none, none, none, none⟩

def sampleDB : DB :=
  ⟨[sampleListing], [sampleBuyer, sampleSeller], [sampleStore], [sampleCard],
   [], 11, 1⟩

def sampleCfg : PayfastConfig :=
  ⟨"mid", "mkey", "", "smid", "skey", "", true⟩

def sampleCreateInput : CreatePaymentInput :=
  ⟨some "165.00", some "Flareon Ex", some "p1", some 1, some "buyer1",
   some "seller1"⟩

def sampleItnComplete : ItnData :=
  ⟨[("m_payment_id", "p1"), ("pf_payment_id", "pf-77"),
    ("payment_status", "COMPLETE"), ("amount_gross", "165.00"),
    ("item_name", "Flareon Ex"), ("email_address", "buyer@example.com"),
    ("merchant_id", "smid"), ("signature", "sig")]⟩

def sampleItnFailed : ItnData :=
  ⟨[("m_payment_id", "p1"), ("payment_status", "FAILED"),
    ("merchant_id", "smid"), ("signature", "sig")]⟩

/-- State after initiating payment `p1` (all three relation ids supplied). -/
def c1AfterCreate : PayStore :=
  (createPayment sampleCreateInput 100 "generated" emptyPayStore).store

/-- State after the browser return path observes success for `p1`. -/
def c1AfterReturn : RetResult :=
  returnHandler "success" (some "p1") 200 c1AfterCreate sampleDB

/-- State after the ITN COMPLETE notification then arrives for `p1`. -/
def c1AfterItn : ItnResult :=
  itnHandler sampleCfg sampleItnComplete 300 c1AfterReturn.store c1AfterReturn.db

/-! ## Helper lemmas: the payment store map -/

theorem PayStore.get_set_self (s : PayStore) (k : String) (r : PaymentRecord) :
    (s.set k r) k = some r := by
  simp [PayStore.set]

theorem PayStore.get_set_ne (s : PayStore) (k k' : String) (r : PaymentRecord)
    (h : k' ≠ k) : (s.set k r) k' = s k' := by
  simp [PayStore.set, h]

/-! ## Helper lemmas: the lexicographic key order -/

theorem charEqOfToNat {a b : Char} (h : a.toNat = b.toNat) : a = b := by
  apply Char.ext
  apply UInt32.ext
  simpa [Char.toNat, UInt32.toNat] using h

theorem strLtB_asymm : ∀ x y : List Char, strLtB x y = true → strLtB y x = false := by
  intro x
  induction x with
  | nil => intro y; cases y <;> simp [strLtB]
  | cons a as ih =>
    intro y
    cases y with
    | nil => simp [strLtB]
    | cons b bs =>
      simp only [strLtB]
      by_cases h1 : a.toNat < b.toNat
      · simp [h1, Nat.lt_asymm h1]
      · by_cases h2 : b.toNat < a.toNat
        · simp [h1, h2]
        · simp [h1, h2]
          exact ih bs

theorem strLtB_trans : ∀ x y z : List Char,
    strLtB x y = true → strLtB y z = true → strLtB x z = true := by
  intro x
  induction x with
  | nil =>
    intro y z
    cases y <;> cases z <;> simp [strLtB]
  | cons a as ih =>
    intro y z
    cases y with
    | nil => simp [strLtB]
    | cons b bs =>
      cases z with
      | nil => simp [strLtB]
      | cons c cs =>
        simp only [strLtB]
        by_cases h1 : a.toNat < b.toNat
        · by_cases h2 : b.toNat < c.toNat
          · simp [h1, h2, Nat.lt_trans h1 h2]
          · by_cases h3 : c.toNat < b.toNat
            · simp [h1, h2, h3]
            · have h5 : a.toNat < c.toNat := by omega
              simp [h1, h2, h3, h5]
        · by_cases h4 : b.toNat < a.toNat
          · simp [h1, h4]
          · by_cases h2 : b.toNat < c.toNat
            · have h5 : a.toNat < c.toNat := by omega
              simp [h1, h4, h2, h5]
            · by_cases h3 : c.toNat < b.toNat
              · simp [h1, h4, h2, h3]
              · have h5 : ¬ a.toNat < c.toNat := by omega
                have h6 : ¬ c.toNat < a.toNat := by omega
                simp [h1, h4, h2, h3, h5, h6]
                exact ih bs cs

theorem strLtB_conn : ∀ x y : List Char,
    strLtB x y = false → strLtB y x = false → x = y := by
  intro x
  induction x with
  | nil => intro y; cases y <;> simp [strLtB]
  | cons a as ih =>
    intro y
    cases y with
    | nil => simp [strLtB]
    | cons b bs =>
      simp only [strLtB]
      by_cases h1 : a.toNat < b.toNat
      · simp [h1]
      · by_cases h2 : b.toNat < a.toNat
        · simp [h1, h2]
        · have hab : a = b := charEqOfToNat (by omega)
          simp [h1, h2, hab]
          exact ih bs

theorem keyLe_total (a b : String) : keyLe a b ∨ keyLe b a := by
  unfold keyLe strLeB
  by_cases h : strLtB b.data a.data = true
  · right
    simp [strLtB_asymm _ _ h]
  · left
    simp_all

theorem keyLe_trans (a b c : String) (h1 : keyLe a b) (h2 : keyLe b c) :
    keyLe a c := by
  unfold keyLe strLeB at *
  simp only [Bool.not_eq_true'] at *
  by_cases hca : strLtB c.data a.data = true
  · by_cases hab : strLtB a.data b.data = true
    · have := strLtB_trans _ _ _ hca hab
      simp_all
    · have hd : a.data = b.data :=
        strLtB_conn _ _ (by simp_all) h1
      rw [hd] at hca
      simp_all
  · simp_all

theorem keyLe_antisymm (a b : String) (h1 : keyLe a b) (h2 : keyLe b a) :
    a = b := by
  unfold keyLe strLeB at *
  simp only [Bool.not_eq_true'] at *
  have hd : a.data = b.data := strLtB_conn _ _ h2 h1
  cases a
  cases b
  simp_all

/-! ## Helper lemmas: association-list lookup and the filtered parameter
list -/

theorem lookup_some_of_mem_nodup :
    ∀ {l : List (String × String)} {k v : String}, (k, v) ∈ l →
      (l.map Prod.fst).Nodup → l.lookup k = some v := by
  intro l
  induction l with
  | nil => simp
  | cons hd t ih =>
    intro k v hmem hnd
    obtain ⟨k1, v1⟩ := hd
    rcases List.mem_cons.mp hmem with heq | htail
    · obtain ⟨rfl, rfl⟩ := Prod.mk.injEq .. ▸ heq
      simp [List.lookup]
    · have hk : k ∈ t.map Prod.fst := List.mem_map_of_mem Prod.fst htail
      have hne : k ≠ k1 := by
        rintro rfl
        exact (List.nodup_cons.mp hnd).1 hk
      have hbeq : (k == k1) = false := beq_eq_false_iff_ne.mpr hne
      simp only [List.lookup, hbeq]
      exact ih htail (List.nodup_cons.mp hnd).2

theorem lookup_mem_of_some :
    ∀ {l : List (String × String)} {k v : String},
      l.lookup k = some v → (k, v) ∈ l := by
  intro l
  induction l with
  | nil => simp [List.lookup]
  | cons hd t ih =>
    intro k v h
    obtain ⟨k1, v1⟩ := hd
    by_cases hk : k = k1
    · subst hk
      simp_all [List.lookup]
    · have hbeq : (k == k1) = false := beq_eq_false_iff_ne.mpr hk
      simp only [List.lookup, hbeq] at h
      exact List.mem_cons_of_mem _ (ih h)

theorem lookup_eq_of_perm {l₁ l₂ : List (String × String)} (h : l₁.Perm l₂)
    (nd : (l₁.map Prod.fst).Nodup) (k : String) :
    l₁.lookup k = l₂.lookup k := by
  cases hv : l₁.lookup k with
  | some v =>
    exact (lookup_some_of_mem_nodup (h.mem_iff.mp (lookup_mem_of_some hv))
      ((h.map Prod.fst).nodup nd)).symm
  | none =>
    cases hv2 : l₂.lookup k with
    | none => rfl
    | some v2 =>
      have : l₁.lookup k = some v2 :=
        lookup_some_of_mem_nodup (h.mem_iff.mpr (lookup_mem_of_some hv2)) nd
      rw [hv] at this
      exact this.symm ▸ rfl

theorem payfastFiltered_keys : ∀ p : List (String × String),
    (payfastFiltered p).map Prod.fst =
      (p.filter (fun kv => kv.2 != "" && kv.1 != "signature")).map Prod.fst := by
  intro p
  induction p with
  | nil => rfl
  | cons kv t ih =>
    simp only [payfastFiltered] at ih
    by_cases h1 : kv.2 = ""
    · simp [payfastFiltered, List.filterMap_cons, List.filter_cons, h1, ih]
    · by_cases h2 : kv.1 = "signature"
      · simp [payfastFiltered, List.filterMap_cons, List.filter_cons, h1, h2, ih]
      · simp [payfastFiltered, List.filterMap_cons, List.filter_cons, h1, h2, ih]

theorem payfastFiltered_keys_nodup {p : List (String × String)}
    (h : (p.map Prod.fst).Nodup) :
    ((payfastFiltered p).map Prod.fst).Nodup := by
  rw [payfastFiltered_keys]
  exact (((List.filter_sublist p).map Prod.fst)).nodup h

theorem insertionSort_keyLe_eq_of_perm {l₁ l₂ : List String}
    (h : l₁.Perm l₂) :
    List.insertionSort keyLe l₁ = List.insertionSort keyLe l₂ :=
  @List.eq_of_perm_of_sorted String keyLe ⟨keyLe_antisymm⟩ _ _
    (((List.perm_insertionSort keyLe l₁).trans h).trans
      (List.perm_insertionSort keyLe l₂).symm)
    (@List.sorted_insertionSort String keyLe _ ⟨keyLe_total⟩
      ⟨keyLe_trans⟩ l₁)
    (@List.sorted_insertionSort String keyLe _ ⟨keyLe_total⟩
      ⟨keyLe_trans⟩ l₂)

theorem canonicalPairs_eq_of_perm {f₁ f₂ : List (String × String)}
    (h : f₁.Perm f₂) (nd : (f₁.map Prod.fst).Nodup) :
    canonicalPairs f₁ = canonicalPairs f₂ := by
  unfold canonicalPairs
  rw [insertionSort_keyLe_eq_of_perm (h.map Prod.fst)]
  refine List.map_congr_left fun k _ => ?_
  rw [lookup_eq_of_perm h nd k]

/-! ## Helper lemmas: shape of the store updates of each handler -/

theorem returnSuccessUpdate_store_of_nonpending {pid : String} {now : Nat}
    {s : PayStore} {db : DB} {k : String} {r : PaymentRecord}
    (hr : s k = some r) (hnp : r.status ≠ .pending) :
    (returnSuccessUpdate pid now s db).1 k = some r := by
  unfold returnSuccessUpdate
  split
  next p hs =>
    by_cases hp : (p.status == PayStatus.pending) = true
    · rw [if_pos hp]
      have hk : k ≠ pid := by
        rintro rfl
        rw [hs] at hr
        cases hr
        exact hnp (by simpa using hp)
      split <;> exact (PayStore.get_set_ne _ _ _ _ hk).trans hr
    · rw [if_neg hp]
      exact hr
  next hs =>
    by_cases hk : k = pid
    · subst hk
      rw [hs] at hr
      cases hr
    · exact (PayStore.get_set_ne _ _ _ _ hk).trans hr

theorem returnSuccessUpdate_preserves_ids {pid : String} {now : Nat}
    {s : PayStore} {db : DB} {k : String} {r r' : PaymentRecord}
    (hr : s k = some r) (hr' : (returnSuccessUpdate pid now s db).1 k = some r') :
    r'.listingId = r.listingId ∧ r'.buyerId = r.buyerId ∧
      r'.sellerId = r.sellerId := by
  unfold returnSuccessUpdate at hr'
  split at hr'
  next p hs =>
    by_cases hp : (p.status == PayStatus.pending) = true
    · rw [if_pos hp] at hr'
      by_cases hk : k = pid
      · subst hk
        rw [hs] at hr
        cases hr
        split at hr' <;>
          · simp only [PayStore.get_set_self] at hr'
            cases hr'
            exact ⟨rfl, rfl, rfl⟩
      · split at hr' <;>
          · simp only [] at hr'
            rw [PayStore.get_set_ne _ _ _ _ hk, hr] at hr'
            cases hr'
            exact ⟨rfl, rfl, rfl⟩
    · rw [if_neg hp] at hr'
      simp only [] at hr'
      rw [hr] at hr'
      cases hr'
      exact ⟨rfl, rfl, rfl⟩
  next hs =>
    by_cases hk : k = pid
    · subst hk
      rw [hs] at hr
      cases hr
    · simp only [] at hr'
      rw [PayStore.get_set_ne _ _ _ _ hk, hr] at hr'
      cases hr'
      exact ⟨rfl, rfl, rfl⟩

theorem returnHandler_store (status : String) (mp : Option String) (now : Nat)
    (s : PayStore) (db : DB) :
    (returnHandler status mp now s db).store =
      (match mp with
       | some pid =>
           if (status == "success") = true then (returnSuccessUpdate pid now s db).1
           else s
       | none => s) := by
  cases mp with
  | none => rfl
  | some pid =>
    by_cases h : (status == "success") = true <;>
      simp [returnHandler, h]

theorem returnHandler_db (status : String) (mp : Option String) (now : Nat)
    (s : PayStore) (db : DB) :
    (returnHandler status mp now s db).db =
      (match mp with
       | some pid =>
           if (status == "success") = true then (returnSuccessUpdate pid now s db).2
           else db
       | none => db) := by
  cases mp with
  | none => rfl
  | some pid =>
    by_cases h : (status == "success") = true <;>
      simp [returnHandler, h]

theorem itnCompleteFallback_store (itemName emailAddr amountGross : String)
    (sig : Bool) (s' : PayStore) (now : Nat) (db : DB) :
    (itnCompleteFallback itemName emailAddr amountGross sig s' now db).store = s' := by
  unfold itnCompleteFallback
  repeat' split
  all_goals rfl

theorem itnHandler_store_complete (cfg : PayfastConfig) (d : ItnData)
    (now : Nat) (s : PayStore) (db : DB)
    (hc : d.field "payment_status" = "COMPLETE") :
    (itnHandler cfg d now s db).store =
      s.set (d.field "m_payment_id") (itnCompleteRecord d now s) := by
  unfold itnHandler
  rw [hc]
  rw [if_pos (by simp : (("COMPLETE" == "COMPLETE") = true))]
  simp only []
  split
  · rfl
  · exact itnCompleteFallback_store _ _ _ _ _ _ _

theorem itnHandler_store_failed (cfg : PayfastConfig) (d : ItnData)
    (now : Nat) (s : PayStore) (db : DB)
    (hc2 : d.field "payment_status" = "FAILED") :
    (itnHandler cfg d now s db).store =
      s.set (d.field "m_payment_id") (itnFailedRecord d now) := by
  unfold itnHandler
  rw [hc2]
  simp only []
  rfl

theorem itnHandler_store_other (cfg : PayfastConfig) (d : ItnData)
    (now : Nat) (s : PayStore) (db : DB)
    (hc1 : d.field "payment_status" ≠ "COMPLETE")
    (hc2 : d.field "payment_status" ≠ "FAILED") :
    (itnHandler cfg d now s db).store = s := by
  unfold itnHandler
  rw [if_neg (by simp [hc1]), if_neg (by simp [hc2])]

theorem createPayment_store_valid (inp : CreatePaymentInput) (now : Nat)
    (freshId : String) (s : PayStore) (h1 : jsFalsy inp.amount = false)
    (h2 : jsFalsy inp.itemName = false) :
    (createPayment inp now freshId s).paymentId = jsOr inp.mPaymentId freshId ∧
      (createPayment inp now freshId s).store =
        s.set (jsOr inp.mPaymentId freshId)
          { status := .pending, mPaymentId := jsOr inp.mPaymentId freshId,
            pfPaymentId := none, amount := none, timestamp := now,
            listingId := inp.listingId, buyerId := inp.buyerId,
            sellerId := inp.sellerId } := by
  unfold createPayment
  rw [h1, h2]
  exact ⟨rfl, rfl⟩

theorem createPayment_store_invalid (inp : CreatePaymentInput) (now : Nat)
    (freshId : String) (s : PayStore)
    (h : jsFalsy inp.amount = true ∨ jsFalsy inp.itemName = true) :
    (createPayment inp now freshId s).respStatus = 400 ∧
      (createPayment inp now freshId s).store = s := by
  unfold createPayment
  rcases h with h | h <;> rw [h] <;> simp

/-! ## Claim theorems -/

/-- C5: the notification (ITN) webhook handler responds 200 to every inbound
payload and store/database state: on signature mismatch (the comparison is
computed and only recorded), on unknown payment status, on missing stored
metadata and on every lookup miss of the fallback resolution; the source
additionally wraps the body in a try/catch whose catch path also responds
200, so no modelled or exceptional exit produces another status. -/
theorem itn_always_acknowledges_200 (cfg : PayfastConfig) (d : ItnData)
    (now : Nat) (s : PayStore) (db : DB) :
    (itnHandler cfg d now s db).respStatus = 200 := by
  unfold itnHandler itnCompleteFallback
  simp only []
  repeat' split
  all_goals rfl

/-- C6: the computed signature digest does not depend on the order in which
fields appear in the input parameter mapping: for parameter lists with
distinct field names (as JavaScript objects guarantee), any permutation
yields the identical digest. -/
theorem signature_order_independent (p₁ p₂ : List (String × String))
    (secret : Option String) (hperm : p₁.Perm p₂)
    (hnd : (p₁.map Prod.fst).Nodup) :
    generatePayFastSignature p₁ secret = generatePayFastSignature p₂ secret := by
  unfold generatePayFastSignature signatureBaseString canonicalOfFiltered
  have hfp : (payfastFiltered p₁).Perm (payfastFiltered p₂) :=
    hperm.filterMap _
  rw [canonicalPairs_eq_of_perm hfp (payfastFiltered_keys_nodup hnd)]

/-- Witness for C6 at a concrete two-field mapping and its swap. -/
theorem signature_order_independent_witness :
    ([("merchant_id", "10000100"), ("amount", "165.00")] :
        List (String × String)).Perm
        [("amount", "165.00"), ("merchant_id", "10000100")] ∧
      ((([("merchant_id", "10000100"), ("amount", "165.00")] :
        List (String × String)).map Prod.fst).Nodup) ∧
      generatePayFastSignature
          [("merchant_id", "10000100"), ("amount", "165.00")] (some "pw") =
        generatePayFastSignature
          [("amount", "165.00"), ("merchant_id", "10000100")] (some "pw") :=
  ⟨by decide, by decide,
    signature_order_independent _ _ (some "pw") (by decide) (by decide)⟩

/-- C9: the canonicalization filter drops exactly the `signature` field and
fields whose value is the empty string (absent fields are not in the list at
all), keeping everything else trimmed; in particular a field whose value is
the string "0" survives filtering and contributes its `key=0` piece to the
canonical string that is hashed. -/
theorem zero_value_retained_in_signature :
    (∀ (params : List (String × String)) (kv : String × String),
        kv ∈ payfastFiltered params ↔
          ∃ v, (kv.1, v) ∈ params ∧ v ≠ "" ∧ kv.1 ≠ "signature" ∧
            kv.2 = jsTrim v) ∧
      (∀ (params : List (String × String)) (k : String),
        (params.map Prod.fst).Nodup → k ≠ "signature" → (k, "0") ∈ params →
          (k ++ "=" ++ "0") ∈ canonicalPairs (payfastFiltered params)) := by
  constructor
  · intro params kv
    obtain ⟨k, w⟩ := kv
    simp only [payfastFiltered, List.mem_filterMap]
    constructor
    · rintro ⟨⟨ak, av⟩, ha, hfa⟩
      by_cases hc : av ≠ "" ∧ ak ≠ "signature"
      · rw [if_pos hc] at hfa
        simp only [Option.some.injEq, Prod.mk.injEq] at hfa
        obtain ⟨rfl, rfl⟩ := hfa
        exact ⟨av, ha, hc.1, hc.2, rfl⟩
      · rw [if_neg hc] at hfa
        cases hfa
    · rintro ⟨v, hv, hne, hks, rfl⟩
      exact ⟨(k, v), hv, by rw [if_pos ⟨hne, hks⟩]⟩
  · intro params k hnd hks hmem
    have hf : (k, "0") ∈ payfastFiltered params := by
      simp only [payfastFiltered, List.mem_filterMap]
      refine ⟨(k, "0"), hmem, ?_⟩
      rw [if_pos ⟨(by decide : ("0" : String) ≠ ""), hks⟩]
      rfl
    have hkeys : k ∈ (payfastFiltered params).map Prod.fst :=
      List.mem_map_of_mem Prod.fst hf
    have hsorted :
        k ∈ List.insertionSort keyLe ((payfastFiltered params).map Prod.fst) :=
      (List.perm_insertionSort keyLe _).mem_iff.mpr hkeys
    have hlook : (payfastFiltered params).lookup k = some "0" :=
      lookup_some_of_mem_nodup hf (payfastFiltered_keys_nodup hnd)
    unfold canonicalPairs
    refine List.mem_map.mpr ⟨k, hsorted, ?_⟩
    rw [hlook]
    rfl

/-- Witness for C9: the field `("amount", "0")` of a concrete mapping
survives filtering and appears as `amount=0` in the canonical string. -/
theorem zero_value_retained_in_signature_witness :
    ((([("amount", "0"), ("item_name", "x")] :
        List (String × String)).map Prod.fst).Nodup) ∧
      ("amount" ++ "=" ++ "0") ∈
        canonicalPairs (payfastFiltered [("amount", "0"), ("item_name", "x")]) :=
  ⟨by decide,
    zero_value_retained_in_signature.2 [("amount", "0"), ("item_name", "x")]
      "amount" (by decide) (by decide) (by decide)⟩

theorem payfastFiltered_head_trim (k v v' : String)
    (rest : List (String × String)) (hv : v = "" ↔ v' = "")
    (ht : jsTrim v = jsTrim v') :
    payfastFiltered ((k, v) :: rest) = payfastFiltered ((k, v') :: rest) := by
  by_cases h1 : v = ""
  · have h2 : v' = "" := hv.mp h1
    simp [payfastFiltered, List.filterMap_cons, h1, h2]
  · have h2 : v' ≠ "" := fun hh => h1 (hv.mpr hh)
    by_cases hk : k = "signature"
    · simp [payfastFiltered, List.filterMap_cons, h1, h2, hk]
    · simp [payfastFiltered, List.filterMap_cons, h1, h2, hk, ht]

/-- C4 counterexample: the parameter set `{item_name: "a "}` and its
single-character mutation `{item_name: "a\t"}` (the trailing space replaced
by a tab) produce the identical signature, because values are trimmed before
encoding; verification of the original signature therefore still succeeds on
the mutated parameter set. -/
theorem signature_single_char_mutation_collides :
    generatePayFastSignature [("item_name", "a ")] none =
        generatePayFastSignature [("item_name", "a\t")] none ∧
      verifySignature [("item_name", "a\t")]
        (generatePayFastSignature [("item_name", "a ")] none) none = true := by
  have h : payfastFiltered [("item_name", "a ")] =
      payfastFiltered [("item_name", "a\t")] :=
    payfastFiltered_head_trim _ _ _ _ (by decide) (by decide)
  have hs : generatePayFastSignature [("item_name", "a ")] none =
      generatePayFastSignature [("item_name", "a\t")] none := by
    unfold generatePayFastSignature signatureBaseString
    rw [h]
  refine ⟨hs, ?_⟩
  unfold verifySignature
  rw [hs]
  exact beq_self_eq_true _

/-- C4 (amended): for every parameter mapping and secret, verifying the
parameter set against the signature just produced for it succeeds; however a
single-character mutation of a value does not always change the digest:
because values are trimmed before encoding, any mutation with the same
trimmed value (and the same emptiness, which controls filtering) leaves the
computed signature unchanged, so such mutations still verify. -/
theorem signature_roundtrip_and_trim_collision :
    (∀ (params : List (String × String)) (secret : Option String),
        verifySignature params (generatePayFastSignature params secret)
          secret = true) ∧
      (∀ (k v v' : String) (rest : List (String × String))
          (secret : Option String), (v = "" ↔ v' = "") →
        jsTrim v = jsTrim v' →
          generatePayFastSignature ((k, v) :: rest) secret =
            generatePayFastSignature ((k, v') :: rest) secret) := by
  constructor
  · intro params secret
    unfold verifySignature
    exact beq_self_eq_true _
  · intro k v v' rest secret hv ht
    unfold generatePayFastSignature signatureBaseString
    rw [payfastFiltered_head_trim k v v' rest hv ht]

/-- Witness for C4 (amended) at concrete inputs: the roundtrip at a one-field
mapping, and the trim-collision part at the values "b " and "b". -/
theorem signature_roundtrip_and_trim_collision_witness :
    verifySignature [("amount", "10.00")]
        (generatePayFastSignature [("amount", "10.00")] (some "pw"))
        (some "pw") = true ∧
      (("b " : String) = "" ↔ ("b" : String) = "") ∧
      jsTrim "b " = jsTrim "b" ∧
      generatePayFastSignature [("item_name", "b ")] none =
        generatePayFastSignature [("item_name", "b")] none :=
  ⟨signature_roundtrip_and_trim_collision.1 [("amount", "10.00")] (some "pw"),
    by decide, by decide,
    signature_roundtrip_and_trim_collision.2 "item_name" "b " "b" [] none
      (by decide) (by decide)⟩

/-- C7: payment initiation with a missing (or empty, which JavaScript treats
the same) `amount` or `itemName` is rejected synchronously with status 400,
and the payment status store is left exactly as it was: no record is
created. -/
theorem create_payment_validation_rejects (inp : CreatePaymentInput)
    (now : Nat) (freshId : String) (s : PayStore)
    (h : jsFalsy inp.amount = true ∨ jsFalsy inp.itemName = true) :
    (createPayment inp now freshId s).respStatus = 400 ∧
      (createPayment inp now freshId s).store = s :=
  createPayment_store_invalid inp now freshId s h

/-- Witness for C7: a request with no amount at all is rejected with 400 and
the empty store stays empty. -/
theorem create_payment_validation_rejects_witness :
    jsFalsy (none : Option String) = true ∧
      (createPayment ⟨none, some "Flareon Ex", some "p9", none, none, none⟩
          5 "fresh9" emptyPayStore).respStatus = 400 ∧
      (createPayment ⟨none, some "Flareon Ex", some "p9", none, none, none⟩
          5 "fresh9" emptyPayStore).store = emptyPayStore :=
  ⟨by decide,
    create_payment_validation_rejects
      ⟨none, some "Flareon Ex", some "p9", none, none, none⟩ 5 "fresh9"
      emptyPayStore (Or.inl (by decide))⟩

/-- C8: when no listing exists for the given listing id, the Ownership
Transfer Engine returns the database state unchanged: no owned-asset record
is created or deleted, no listing is deactivated, no order is created and no
store sales counter is incremented. -/
theorem transfer_aborts_when_listing_missing (listingId : Nat)
    (buyerId sellerId itemName amount : String) (now : Nat) (db : DB)
    (h : db.listings.find? (fun l => l.id == listingId) = none) :
    transferCardOwnership listingId buyerId sellerId itemName amount now db
      = db := by
  unfold transferCardOwnership
  rw [h]

/-- Witness for C8: invoking the engine on a database with no listings
leaves it untouched. -/
theorem transfer_aborts_when_listing_missing_witness :
    emptyDB.listings.find? (fun l => l.id == 1) = none ∧
      transferCardOwnership 1 "buyer1" "seller1" "Flareon Ex" "165.00" 7
        emptyDB = emptyDB :=
  ⟨rfl,
    transfer_aborts_when_listing_missing 1 "buyer1" "seller1" "Flareon Ex"
      "165.00" 7 emptyDB rfl⟩

/-- C10: no operation of the subsystem ever writes the status `cancelled`
into the payment status store. A cancellation on the return path
(`status=cancel`) leaves both the store and the database entirely unchanged,
and every record any of the three handlers writes carries status `pending`,
`complete` or `failed`: a key holding a `cancelled` record after a handler
runs held that exact record before. -/
theorem no_cancelled_status_written :
    (∀ (mp : Option String) (now : Nat) (s : PayStore) (db : DB),
        (returnHandler "cancel" mp now s db).store = s ∧
          (returnHandler "cancel" mp now s db).db = db) ∧
      (∀ (status : String) (mp : Option String) (now : Nat) (s : PayStore)
          (db : DB) (k : String),
        (returnHandler status mp now s db).store k = s k ∨
          ∃ r, (returnHandler status mp now s db).store k = some r ∧
            r.status ≠ PayStatus.cancelled) ∧
      (∀ (cfg : PayfastConfig) (d : ItnData) (now : Nat) (s : PayStore)
          (db : DB) (k : String),
        (itnHandler cfg d now s db).store k = s k ∨
          ∃ r, (itnHandler cfg d now s db).store k = some r ∧
            r.status ≠ PayStatus.cancelled) ∧
      (∀ (inp : CreatePaymentInput) (now : Nat) (freshId : String)
          (s : PayStore) (k : String),
        (createPayment inp now freshId s).store k = s k ∨
          ∃ r, (createPayment inp now freshId s).store k = some r ∧
            r.status ≠ PayStatus.cancelled) := by
  refine ⟨fun mp now s db => ⟨?_, ?_⟩, ?_, ?_, ?_⟩
  · rw [returnHandler_store]
    cases mp <;> simp
  · rw [returnHandler_db]
    cases mp <;> simp
  · intro status mp now s db k
    rw [returnHandler_store]
    cases mp with
    | none => exact Or.inl rfl
    | some pid =>
      simp only []
      by_cases hsucc : (status == "success") = true
      · rw [if_pos hsucc]
        unfold returnSuccessUpdate
        split
        next p hs =>
          by_cases hp : (p.status == PayStatus.pending) = true
          · rw [if_pos hp]
            by_cases hk : k = pid
            · subst hk
              right
              split <;>
                exact ⟨_, PayStore.get_set_self _ _ _, by simp⟩
            · left
              split <;> exact PayStore.get_set_ne _ _ _ _ hk
          · rw [if_neg hp]
            exact Or.inl rfl
        next hs =>
          by_cases hk : k = pid
          · subst hk
            right
            exact ⟨_, PayStore.get_set_self _ _ _, by simp⟩
          · left
            exact PayStore.get_set_ne _ _ _ _ hk
      · rw [if_neg hsucc]
        exact Or.inl rfl
  · intro cfg d now s db k
    by_cases hc : d.field "payment_status" = "COMPLETE"
    · rw [itnHandler_store_complete cfg d now s db hc]
      by_cases hk : k = d.field "m_payment_id"
      · subst hk
        right
        exact ⟨_, PayStore.get_set_self _ _ _, by simp [itnCompleteRecord]⟩
      · left
        exact PayStore.get_set_ne _ _ _ _ hk
    · by_cases hf : d.field "payment_status" = "FAILED"
      · rw [itnHandler_store_failed cfg d now s db hf]
        by_cases hk : k = d.field "m_payment_id"
        · subst hk
          right
          exact ⟨_, PayStore.get_set_self _ _ _, by simp [itnFailedRecord]⟩
        · left
          exact PayStore.get_set_ne _ _ _ _ hk
      · rw [itnHandler_store_other cfg d now s db hc hf]
        exact Or.inl rfl
  · intro inp now freshId s k
    by_cases hv : jsFalsy inp.amount = true ∨ jsFalsy inp.itemName = true
    · exact Or.inl (congrFun (createPayment_store_invalid inp now freshId s hv).2 k)
    · push_neg at hv
      obtain ⟨h1, h2⟩ := hv
      rw [(createPayment_store_valid inp now freshId s
        (Bool.not_eq_true _ ▸ h1) (Bool.not_eq_true _ ▸ h2)).2]
      by_cases hk : k = jsOr inp.mPaymentId freshId
      · subst hk
        right
        exact ⟨_, PayStore.get_set_self _ _ _, by simp⟩
      · left
        exact PayStore.get_set_ne _ _ _ _ hk

/-- C2 counterexample: a record already in the terminal status `complete` is
overwritten to `failed` by a later FAILED notification for the same payment
id — the ITN handler sets the status unconditionally, so the transition
complete to failed (out of a terminal state) does occur. -/
theorem itn_failed_overwrites_complete_status :
    ((emptyPayStore.set "p1"
        ⟨.complete, "p1", some "pf-77", some "165.00", 50, none, none, none⟩)
        "p1").map (·.status) = some PayStatus.complete ∧
      ((itnHandler sampleCfg sampleItnFailed 60
          (emptyPayStore.set "p1"
            ⟨.complete, "p1", some "pf-77", some "165.00", 50, none, none,
              none⟩)
          emptyDB).store "p1").map (·.status) = some PayStatus.failed := by
  constructor
  · rfl
  · decide

/-- C2 (amended): the return handler never changes a record whose status is
not `pending` (its only transition is pending to complete); the notification
handler overwrites the record at `m_payment_id` unconditionally — to
`complete` whenever `payment_status` is COMPLETE and to `failed` whenever it
is FAILED, regardless of any previously stored status — and leaves the store
unchanged for any other `payment_status`; initiation overwrites the record
at its payment id to `pending`; no handler touches any other key. -/
theorem payment_status_transition_discipline :
    (∀ (status : String) (mp : Option String) (now : Nat) (s : PayStore)
        (db : DB) (k : String) (r : PaymentRecord),
      s k = some r → r.status ≠ PayStatus.pending →
        (returnHandler status mp now s db).store k = some r) ∧
      (∀ (cfg : PayfastConfig) (d : ItnData) (now : Nat) (s : PayStore)
          (db : DB), d.field "payment_status" = "COMPLETE" →
        (itnHandler cfg d now s db).store (d.field "m_payment_id") =
            some (itnCompleteRecord d now s) ∧
          (itnCompleteRecord d now s).status = PayStatus.complete) ∧
      (∀ (cfg : PayfastConfig) (d : ItnData) (now : Nat) (s : PayStore)
          (db : DB), d.field "payment_status" = "FAILED" →
        (itnHandler cfg d now s db).store (d.field "m_payment_id") =
            some (itnFailedRecord d now) ∧
          (itnFailedRecord d now).status = PayStatus.failed) ∧
      (∀ (cfg : PayfastConfig) (d : ItnData) (now : Nat) (s : PayStore)
          (db : DB), d.field "payment_status" ≠ "COMPLETE" →
        d.field "payment_status" ≠ "FAILED" →
          (itnHandler cfg d now s db).store = s) ∧
      (∀ (cfg : PayfastConfig) (d : ItnData) (now : Nat) (s : PayStore)
          (db : DB) (k : String), k ≠ d.field "m_payment_id" →
        (itnHandler cfg d now s db).store k = s k) ∧
      (∀ (inp : CreatePaymentInput) (now : Nat) (freshId : String)
          (s : PayStore), jsFalsy inp.amount = false →
        jsFalsy inp.itemName = false →
          ((createPayment inp now freshId s).store
              (createPayment inp now freshId s).paymentId).map (·.status) =
            some PayStatus.pending) ∧
      (∀ (inp : CreatePaymentInput) (now : Nat) (freshId : String)
          (s : PayStore) (k : String), k ≠ jsOr inp.mPaymentId freshId →
        (createPayment inp now freshId s).store k = s k) := by
  refine ⟨?_, ?_, ?_, ?_, ?_, ?_, ?_⟩
  · intro status mp now s db k r hr hnp
    rw [returnHandler_store]
    cases mp with
    | none => exact hr
    | some pid =>
      simp only []
      by_cases hsucc : (status == "success") = true
      · rw [if_pos hsucc]
        exact returnSuccessUpdate_store_of_nonpending hr hnp
      · rw [if_neg hsucc]
        exact hr
  · intro cfg d now s db hc
    rw [itnHandler_store_complete cfg d now s db hc]
    exact ⟨PayStore.get_set_self _ _ _, rfl⟩
  · intro cfg d now s db hf
    rw [itnHandler_store_failed cfg d now s db hf]
    exact ⟨PayStore.get_set_self _ _ _, rfl⟩
  · intro cfg d now s db hc hf
    exact itnHandler_store_other cfg d now s db hc hf
  · intro cfg d now s db k hk
    by_cases hc : d.field "payment_status" = "COMPLETE"
    · rw [itnHandler_store_complete cfg d now s db hc]
      exact PayStore.get_set_ne _ _ _ _ hk
    · by_cases hf : d.field "payment_status" = "FAILED"
      · rw [itnHandler_store_failed cfg d now s db hf]
        exact PayStore.get_set_ne _ _ _ _ hk
      · rw [itnHandler_store_other cfg d now s db hc hf]
  · intro inp now freshId s h1 h2
    obtain ⟨hid, hst⟩ := createPayment_store_valid inp now freshId s h1 h2
    rw [hst, hid, PayStore.get_set_self]
    rfl
  · intro inp now freshId s k hk
    by_cases hv : jsFalsy inp.amount = true ∨ jsFalsy inp.itemName = true
    · exact congrFun (createPayment_store_invalid inp now freshId s hv).2 k
    · push_neg at hv
      obtain ⟨h1, h2⟩ := hv
      rw [(createPayment_store_valid inp now freshId s
        (Bool.not_eq_true _ ▸ h1) (Bool.not_eq_true _ ▸ h2)).2]
      exact PayStore.get_set_ne _ _ _ _ hk

/-- Witness for C2 (amended): a concrete `complete` record survives a
success return untouched, and a FAILED notification writes a `failed`
record. -/
theorem payment_status_transition_discipline_witness :
    ((emptyPayStore.set "p1"
        ⟨PayStatus.complete, "p1", none, none, 50, none, none, none⟩) "p1" =
      some ⟨PayStatus.complete, "p1", none, none, 50, none, none, none⟩) ∧
      (PayStatus.complete ≠ PayStatus.pending) ∧
      (returnHandler "success" (some "p1") 60
          (emptyPayStore.set "p1"
            ⟨PayStatus.complete, "p1", none, none, 50, none, none, none⟩)
          emptyDB).store "p1" =
        some ⟨PayStatus.complete, "p1", none, none, 50, none, none, none⟩ :=
  ⟨by decide, by decide,
    payment_status_transition_discipline.1 "success" (some "p1") 60 _ emptyDB
      "p1" _ (by decide) (by decide)⟩

/-- C3 counterexample: a pending record holding all three relation ids loses
them when a FAILED notification arrives — the FAILED branch writes a bare
record with `listingId`, `buyerId` and `sellerId` all absent even though the
caller did not supply replacements. -/
theorem itn_failed_erases_relation_ids :
    ((emptyPayStore.set "p1"
        ⟨.pending, "p1", none, none, 50, some 1, some "buyer1",
          some "seller1"⟩) "p1").map
        (fun r => (r.listingId, r.buyerId, r.sellerId)) =
      some (some 1, some "buyer1", some "seller1") ∧
      ((itnHandler sampleCfg sampleItnFailed 60
          (emptyPayStore.set "p1"
            ⟨.pending, "p1", none, none, 50, some 1, some "buyer1",
              some "seller1"⟩)
          emptyDB).store "p1").map
          (fun r => (r.listingId, r.buyerId, r.sellerId)) =
        some (none, none, none) := by
  constructor
  · rfl
  · decide

/-- C3 (amended): the return handler and the COMPLETE branch of the
notification handler preserve previously stored `listingId`, `buyerId` and
`sellerId` on every record they rewrite; the FAILED branch of the
notification handler instead overwrites the record with all three relation
ids absent. -/
theorem relation_ids_frame_discipline :
    (∀ (status : String) (mp : Option String) (now : Nat) (s : PayStore)
        (db : DB) (k : String) (r r' : PaymentRecord),
      s k = some r → (returnHandler status mp now s db).store k = some r' →
        r'.listingId = r.listingId ∧ r'.buyerId = r.buyerId ∧
          r'.sellerId = r.sellerId) ∧
      (∀ (cfg : PayfastConfig) (d : ItnData) (now : Nat) (s : PayStore)
          (db : DB) (k : String) (r r' : PaymentRecord),
        d.field "payment_status" = "COMPLETE" → s k = some r →
          (itnHandler cfg d now s db).store k = some r' →
            r'.listingId = r.listingId ∧ r'.buyerId = r.buyerId ∧
              r'.sellerId = r.sellerId) ∧
      (∀ (cfg : PayfastConfig) (d : ItnData) (now : Nat) (s : PayStore)
          (db : DB), d.field "payment_status" = "FAILED" →
        (itnHandler cfg d now s db).store (d.field "m_payment_id") =
            some (itnFailedRecord d now) ∧
          (itnFailedRecord d now).listingId = none ∧
          (itnFailedRecord d now).buyerId = none ∧
          (itnFailedRecord d now).sellerId = none) := by
  refine ⟨?_, ?_, ?_⟩
  · intro status mp now s db k r r' hr hr'
    rw [returnHandler_store] at hr'
    cases mp with
    | none =>
      simp only [] at hr'
      rw [hr] at hr'
      cases hr'
      exact ⟨rfl, rfl, rfl⟩
    | some pid =>
      simp only [] at hr'
      by_cases hsucc : (status == "success") = true
      · rw [if_pos hsucc] at hr'
        exact returnSuccessUpdate_preserves_ids hr hr'
      · rw [if_neg hsucc] at hr'
        rw [hr] at hr'
        cases hr'
        exact ⟨rfl, rfl, rfl⟩
  · intro cfg d now s db k r r' hc hr hr'
    rw [itnHandler_store_complete cfg d now s db hc] at hr'
    by_cases hk : k = d.field "m_payment_id"
    · subst hk
      rw [PayStore.get_set_self] at hr'
      cases hr'
      simp [itnCompleteRecord, hr]
    · rw [PayStore.get_set_ne _ _ _ _ hk, hr] at hr'
      cases hr'
      exact ⟨rfl, rfl, rfl⟩
  · intro cfg d now s db hf
    rw [itnHandler_store_failed cfg d now s db hf]
    exact ⟨PayStore.get_set_self _ _ _, rfl, rfl, rfl⟩

/-- Witness for C3 (amended): a success return rewrites a pending record
holding the three relation ids to `complete` with the ids intact. -/
theorem relation_ids_frame_discipline_witness :
    ((emptyPayStore.set "p1"
        ⟨.pending, "p1", none, none, 50, some 1, some "buyer1",
          some "seller1"⟩) "p1" =
      some ⟨.pending, "p1", none, none, 50, some 1, some "buyer1",
        some "seller1"⟩) ∧
      ((returnHandler "success" (some "p1") 60
          (emptyPayStore.set "p1"
            ⟨.pending, "p1", none, none, 50, some 1, some "buyer1",
              some "seller1"⟩)
          emptyDB).store "p1" =
        some ⟨.complete, "p1", none, none, 60, some 1, some "buyer1",
          some "seller1"⟩) ∧
      ((⟨.complete, "p1", none, none, 60, some 1, some "buyer1",
          some "seller1"⟩ : PaymentRecord).listingId =
          (⟨.pending, "p1", none, none, 50, some 1, some "buyer1",
            some "seller1"⟩ : PaymentRecord).listingId ∧
        (⟨.complete, "p1", none, none, 60, some 1, some "buyer1",
          some "seller1"⟩ : PaymentRecord).buyerId =
          (⟨.pending, "p1", none, none, 50, some 1, some "buyer1",
            some "seller1"⟩ : PaymentRecord).buyerId ∧
        (⟨.complete, "p1", none, none, 60, some 1, some "buyer1",
          some "seller1"⟩ : PaymentRecord).sellerId =
          (⟨.pending, "p1", none, none, 50, some 1, some "buyer1",
            some "seller1"⟩ : PaymentRecord).sellerId) :=
  ⟨by decide, by decide,
    relation_ids_frame_discipline.1 "success" (some "p1") 60
      (emptyPayStore.set "p1"
        ⟨.pending, "p1", none, none, 50, some 1, some "buyer1",
          some "seller1"⟩)
      emptyDB "p1"
      ⟨.pending, "p1", none, none, 50, some 1, some "buyer1", some "seller1"⟩
      ⟨.complete, "p1", none, none, 60, some 1, some "buyer1", some "seller1"⟩
      (by decide) (by decide)⟩

/-- C1 (code bug exhibited at a concrete failing input): initiate payment
`p1` with all three relation ids, let the browser return path observe
success (one transfer commits: one order, one buyer asset, sales counter 1),
then let the ITN COMPLETE notification arrive for the same `p1`. The ITN
branch re-reads the stored ids and invokes the Ownership Transfer Engine
again without any transferred-gate: a second order is created, a second copy
of the card lands in the buyer's collection and the sales counter reaches 2
— the committing side effects run twice for one `paymentId`, contradicting
the at-most-once requirement. -/
theorem return_then_itn_complete_double_transfer :
    c1AfterReturn.db.orders.length = 1 ∧
      c1AfterItn.db.orders.length = 2 ∧
      (c1AfterItn.db.collections.filter
          (fun c => c.userId == "buyer1" && c.name == "Flareon Ex")).length
        = 2 ∧
      c1AfterItn.db.stores.map (·.totalSales) = [2] := by
  refine ⟨?_, ?_, ?_, ?_⟩ <;> decide
